import Mathlib

/-!
Verification of the seexcool image-enhancement scripts.

The repository is a set of Python CLI scripts (`scripts/quality_enhance.py`,
`scripts/mosaic_superrecon.py`, `scripts/quality_enhance_standalone.py`,
`scripts/download_models.py`) that upscale and clean up images, optionally
through the third-party RealESRGAN model, falling back to classical Lanczos
resampling.  This file gives a shallow embedding of those scripts.

Modelling choices:
* an image is a pair of pixel dimensions together with a total pixel lookup
  (`Img`); a single-channel plane is `PImg`;
* external library filters (cv2 GaussianBlur, bilateralFilter,
  fastNlMeansDenoisingColored, filter2D, Canny, CLAHE, the BGR/LAB colour
  conversions, and the PIL/cv2 Lanczos resamplers) are opaque to the scripts:
  they are fields of a `CVLib` record, with the one property the libraries
  guarantee and the scripts rely on - a filter returns an image of the same
  dimensions, a resize returns an image of exactly the requested
  dimensions - baked into the wrapper definitions, mirroring the library
  contracts;
* arithmetic the scripts perform themselves (cv2.addWeighted blending,
  `int(...)` truncation, the `scale` range check, the size-ratio check, the
  downloader's size verification) is modelled exactly, over `ℚ`;
* Python floats are modelled as rationals; `int(q)` on a nonnegative float is
  `⌊q⌋`; cv2's saturate_cast is clamping to [0, 255] with rounding to nearest.
-/

/-- A three-channel pixel (8-bit channels kept in `ℕ`, ops clamp to 255). -/
structure Pix where
  c1 : ℕ
  c2 : ℕ
  c3 : ℕ

/-- An image: explicit pixel dimensions plus a total pixel lookup
(row `y`, column `x`).  This mirrors a `numpy` HxWx3 array / PIL image. -/
@[ext]
structure Img where
  width : ℕ
  height : ℕ
  data : ℕ → ℕ → Pix

/-- A single-channel image (a gray / edge plane). -/
structure PImg where
  width : ℕ
  height : ℕ
  data : ℕ → ℕ → ℕ

/-- cv2 `saturate_cast<uchar>`: clamp to [0,255] after rounding to nearest. -/
def satRound (q : ℚ) : ℕ := (max 0 (min 255 (round q))).toNat

/-- One channel of `cv2.addWeighted`: saturate(alpha*u + beta*v + gamma). -/
def blendChan (a b g : ℚ) (u v : ℕ) : ℕ := satRound (a * u + b * v + g)

/-- `cv2.addWeighted` on one pixel. -/
def blendPix (a b g : ℚ) (p q : Pix) : Pix :=
  ⟨blendChan a b g p.c1 q.c1, blendChan a b g p.c2 q.c2, blendChan a b g p.c3 q.c3⟩

/-- `cv2.addWeighted(src1, alpha, src2, beta, gamma)`: pixel-wise saturated
blend; the result has the dimensions of the first operand. -/
def addWeightedImg (p : Img) (a : ℚ) (q : Img) (b g : ℚ) : Img :=
  ⟨p.width, p.height, fun y x => blendPix a b g (p.data y x) (q.data y x)⟩

/-- The external image libraries the scripts call into.  Each field is one
library routine, abstracted over everything but its argument signature;
per the library contracts each filter maps the pixel grid to a new grid of
the same extent (the wrappers below record the dimension behaviour). -/
structure CVLib where
  /-- cv2.GaussianBlur: square kernel size (0 = derived from sigma), sigma. -/
  gauss : ℕ → ℚ → (ℕ → ℕ → Pix) → ℕ → ℕ → Pix
  /-- cv2.bilateralFilter: d, sigmaColor, sigmaSpace. -/
  bilateral : ℕ → ℚ → ℚ → (ℕ → ℕ → Pix) → ℕ → ℕ → Pix
  /-- cv2.fastNlMeansDenoisingColored: h, hColor, templateWindowSize, searchWindowSize. -/
  nlMeans : ℚ → ℚ → ℕ → ℕ → (ℕ → ℕ → Pix) → ℕ → ℕ → Pix
  /-- cv2.filter2D with the given kernel. -/
  filt2D : List (List ℚ) → (ℕ → ℕ → Pix) → ℕ → ℕ → Pix
  /-- cv2.Canny on a gray plane: threshold1, threshold2. -/
  canny : ℚ → ℚ → (ℕ → ℕ → ℕ) → ℕ → ℕ → ℕ
  /-- cv2.createCLAHE(clipLimit, (g,g)).apply on one channel plane. -/
  clahe : ℚ → ℕ → (ℕ → ℕ → ℕ) → ℕ → ℕ → ℕ
  /-- cv2.cvtColor BGR→LAB, per pixel. -/
  bgr2lab : Pix → Pix
  /-- cv2.cvtColor LAB→BGR, per pixel. -/
  lab2bgr : Pix → Pix
  /-- PIL `Image.resize(..., LANCZOS)` resampler: source image, target
  width/height, then the pixel coordinate being produced. -/
  lanczosPIL : Img → ℕ → ℕ → ℕ → ℕ → Pix
  /-- cv2.resize(..., INTER_LANCZOS4) resampler. -/
  lanczosCV : Img → ℕ → ℕ → ℕ → ℕ → Pix

/-- Pointwise colour map (np/cv2 pixel-wise conversions keep dimensions). -/
def pmap (f : Pix → Pix) (img : Img) : Img :=
  ⟨img.width, img.height, fun y x => f (img.data y x)⟩

/-- cv2.GaussianBlur wrapper: same dimensions as the input. -/
def cvGaussianBlur (cv : CVLib) (k : ℕ) (sg : ℚ) (img : Img) : Img :=
  ⟨img.width, img.height, cv.gauss k sg img.data⟩

/-- cv2.bilateralFilter wrapper: same dimensions as the input. -/
def cvBilateralFilter (cv : CVLib) (d : ℕ) (sc ss : ℚ) (img : Img) : Img :=
  ⟨img.width, img.height, cv.bilateral d sc ss img.data⟩

/-- cv2.fastNlMeansDenoisingColored wrapper: same dimensions as the input. -/
def cvNlMeans (cv : CVLib) (h hc : ℚ) (t s : ℕ) (img : Img) : Img :=
  ⟨img.width, img.height, cv.nlMeans h hc t s img.data⟩

/-- cv2.filter2D wrapper: same dimensions as the input. -/
def cvFilter2D (cv : CVLib) (ker : List (List ℚ)) (img : Img) : Img :=
  ⟨img.width, img.height, cv.filt2D ker img.data⟩

/-- cv2.Canny wrapper on a gray plane: same dimensions as the input. -/
def cvCannyP (cv : CVLib) (t1 t2 : ℚ) (p : PImg) : PImg :=
  ⟨p.width, p.height, cv.canny t1 t2 p.data⟩

/-- RGB→BGR (numpy channel swap), per pixel. -/
def swapRB (p : Pix) : Pix := ⟨p.c3, p.c2, p.c1⟩

/-- cv2.cvtColor(..., COLOR_RGB2BGR). -/
def cvtRGB2BGR (img : Img) : Img := pmap swapRB img

/-- cv2.cvtColor(..., COLOR_BGR2RGB). -/
def cvtBGR2RGB (img : Img) : Img := pmap swapRB img

/-- cv2.cvtColor(..., COLOR_BGR2GRAY): 0.299 R + 0.587 G + 0.114 B on a
BGR pixel (c1 = B, c2 = G, c3 = R). -/
def bgr2grayPix (p : Pix) : ℕ :=
  satRound ((299 / 1000 : ℚ) * p.c3 + (587 / 1000 : ℚ) * p.c2 + (114 / 1000 : ℚ) * p.c1)

/-- cv2.cvtColor(..., COLOR_BGR2GRAY) on an image. -/
def cvtBGR2GRAY (img : Img) : PImg :=
  ⟨img.width, img.height, fun y x => bgr2grayPix (img.data y x)⟩

/-- cv2.cvtColor(..., COLOR_GRAY2BGR): replicate the plane into 3 channels. -/
def cvtGRAY2BGR (p : PImg) : Img :=
  ⟨p.width, p.height, fun y x => ⟨p.data y x, p.data y x, p.data y x⟩⟩

/-- PIL `img.resize((tw, th), Image.LANCZOS)`: exactly the requested size. -/
def resizePIL (cv : CVLib) (tw th : ℕ) (img : Img) : Img :=
  ⟨tw, th, fun y x => cv.lanczosPIL img tw th y x⟩

/-- cv2.resize(img, (tw, th), interpolation=INTER_LANCZOS4). -/
def resizeCV (cv : CVLib) (tw th : ℕ) (img : Img) : Img :=
  ⟨tw, th, fun y x => cv.lanczosCV img tw th y x⟩

/-- Channel-1 plane of an image (the L plane of a LAB image). -/
def chan1 (img : Img) : ℕ → ℕ → ℕ := fun y x => (img.data y x).c1

/-- Channel-2 plane of an image. -/
def chan2 (img : Img) : ℕ → ℕ → ℕ := fun y x => (img.data y x).c2

/-- Channel-3 plane of an image. -/
def chan3 (img : Img) : ℕ → ℕ → ℕ := fun y x => (img.data y x).c3

/-- Python `int(q)` on a nonnegative value: truncation toward zero, which on
nonnegative rationals is the floor. -/
def pyInt (q : ℚ) : ℕ := (⌊q⌋).toNat

/-- Python `range(0, n, step)` (the tiling loops); `step = 0` would raise in
Python and never occurs at the call sites (step is 512 - 32 = 480). -/
def pyRange (n step : ℕ) : List ℕ :=
  if step = 0 then [] else (List.range ((n + step - 1) / step)).map (fun i => i * step)

/-- PIL `img.crop((left, top, right, bottom))`. -/
def cropImg (img : Img) (left top right bottom : ℕ) : Img :=
  ⟨right - left, bottom - top, fun y x => img.data (top + y) (left + x)⟩

/-- PIL `Image.new("RGB", (w, h))`: a black canvas. -/
def newRGB (w h : ℕ) : Img := ⟨w, h, fun _ _ => ⟨0, 0, 0⟩⟩

/-- PIL `canvas.paste(tile, (px, py))`: overwrite the tile's rectangle, keep
the canvas dimensions (PIL clips the paste to the canvas). -/
def pasteImg (canvas : Img) (px py : ℕ) (tile : Img) : Img :=
  ⟨canvas.width, canvas.height, fun y x =>
    if px ≤ x ∧ x < px + tile.width ∧ py ≤ y ∧ y < py + tile.height then
      tile.data (y - py) (x - px)
    else canvas.data y x⟩

/-- The row-major list of upscaled tiles produced by the CPU branch of
`upscale_with_tiles` (identical in `quality_enhance.py` and
`mosaic_superrecon.py`): for each `y` then each `x` stepped by
`tile_size - overlap`, crop `(x, y, min (x+tile_size) w, min (y+tile_size) h)`,
run the model on the tile, and record it with paste offset `(4*x, 4*y)`. -/
def tileTriples (predict : Img → Img) (img : Img) (tile_size overlap : ℕ) :
    List (ℕ × ℕ × Img) :=
  (pyRange img.height (tile_size - overlap)).flatMap (fun y =>
    (pyRange img.width (tile_size - overlap)).map (fun x =>
      (4 * x, 4 * y,
        predict (cropImg img x y (min (x + tile_size) img.width)
          (min (y + tile_size) img.height)))))

/-- `upscale_with_tiles(img_pil, model, device, tile_size=512, overlap=32)`
(same code in `quality_enhance.py` and `mosaic_superrecon.py`): on GPU,
run the model on the whole image; on CPU, process the tiles strictly
sequentially and paste each into a fresh `(4*w, 4*h)` canvas at its offset. -/
def upscale_with_tiles (predict : Img → Img) (cuda : Bool) (img : Img)
    (tile_size overlap : ℕ) : Img :=
  if cuda then predict img
  else
    (tileTriples predict img tile_size overlap).foldl
      (fun acc t => pasteImg acc t.1 t.2.1 t.2.2)
      (newRGB (4 * img.width) (4 * img.height))

/-- Environment facts a script run observes: whether the realesrgan import
succeeded (`HAS_REALESRGAN`), whether the weight file exists on disk, whether
the device is cuda, and whether the model invocation raises an exception
(the `except` branches around the RealESRGAN calls). -/
structure EnvConfig where
  hasRealesrgan : Bool
  modelExists : Bool
  cuda : Bool
  modelFails : Bool

/-- Observable outcome of a script run: the process exit code, the image
written to `--output` (`none` when no file is written), and the
verification outcome that is printed to the log (`none` when the
verification log line is not reached). -/
structure RunResult where
  exitCode : ℕ
  output : Option Img
  verifiedLog : Option Bool

/-- The 2.2-center sharpening kernel of `boost_detail`. -/
def sharpenKernelA : List (List ℚ) :=
  [[0, -3/10, 0], [-3/10, 22/10, -3/10], [0, -3/10, 0]]

/-- The 3-center sharpening kernel used by `enhance_edge_clarity`,
`enhance_edges` and the standalone postprocess. -/
def sharpenKernelB : List (List ℚ) :=
  [[0, -1/2, 0], [-1/2, 3, -1/2], [0, -1/2, 0]]

namespace QE

/-- `quality_enhance.preprocess_image`: weak Gaussian blur (3x3, sigma 0.5). -/
def preprocess_image (cv : CVLib) (img : Img) : Img :=
  cvGaussianBlur cv 3 (1/2) img

/-- `quality_enhance.enhance_color`: BGR→LAB, CLAHE(3.0, 8x8) on L,
`addWeighted(a, 1.1, a, 0, 0)` saturation boost on A and B, LAB→BGR. -/
def enhance_color (cv : CVLib) (img : Img) : Img :=
  let lab := pmap cv.bgr2lab img
  let l := cv.clahe 3 8 (chan1 lab)
  let a := fun y x => blendChan (11/10) 0 0 (chan2 lab y x) (chan2 lab y x)
  let b := fun y x => blendChan (11/10) 0 0 (chan3 lab y x) (chan3 lab y x)
  pmap cv.lab2bgr ⟨lab.width, lab.height, fun y x => ⟨l y x, a y x, b y x⟩⟩

/-- `quality_enhance.reduce_noise`: NL-means(10,10,7,21) then
bilateral(5,50,50). -/
def reduce_noise (cv : CVLib) (img : Img) : Img :=
  cvBilateralFilter cv 5 50 50 (cvNlMeans cv 10 10 7 21 img)

/-- `quality_enhance.boost_detail`: unsharp mask
`addWeighted(img, 1.7, GaussianBlur(img, (0,0), 2.0), -0.7, 0)` then the weak
sharpening kernel. -/
def boost_detail (cv : CVLib) (img : Img) : Img :=
  cvFilter2D cv sharpenKernelA
    (addWeightedImg img (17/10) (cvGaussianBlur cv 0 2 img) (-(7/10)) 0)

/-- `quality_enhance.enhance_edge_clarity`: Canny(50,150) on the gray plane,
blend `addWeighted(img, 0.9, edges_3ch, 0.1, 0)`, then sharpening kernel. -/
def enhance_edge_clarity (cv : CVLib) (img : Img) : Img :=
  let edges := cvtGRAY2BGR (cvCannyP cv 50 150 (cvtBGR2GRAY img))
  cvFilter2D cv sharpenKernelB (addWeightedImg img (9/10) edges (1/10) 0)

/-- `quality_enhance.reduce_mosaic`: GaussianBlur(5x5, 1.0), blend
`addWeighted(img, 0.7, blurred, 0.3, 0)`, bilateral(5,50,50). -/
def reduce_mosaic (cv : CVLib) (img : Img) : Img :=
  cvBilateralFilter cv 5 50 50
    (addWeightedImg img (7/10) (cvGaussianBlur cv 5 1 img) (3/10) 0)

/-- `quality_enhance.postprocess_image_enhanced`: RGB→BGR, then colour →
noise → detail → edge clarity → mosaic reduction, then BGR→RGB. -/
def postprocess_image_enhanced (cv : CVLib) (img : Img) : Img :=
  cvtBGR2RGB (reduce_mosaic cv (enhance_edge_clarity cv (boost_detail cv
    (reduce_noise cv (enhance_color cv (cvtRGB2BGR img))))))

/-- `quality_enhance.verify_model_execution`: pass iff the pixel-count ratio
enhanced/original is at least 3.5. -/
def verify_model_execution (orig enh : Img) : Bool :=
  decide ((((enh.height * enh.width : ℕ) : ℚ)) / (((orig.height * orig.width : ℕ) : ℚ)) ≥ 7/2)

/-- Tail of `quality_enhance.main` shared by every upscale branch: the final
resize to `(int(w*scale), int(h*scale))` when `scale != 4.0`, the enhanced
postprocessing pipeline, and the RGB→BGR conversion done for `cv2.imwrite`. -/
def finishRun (cv : CVLib) (scale : ℚ) (w h : ℕ) (log : Option Bool) (sr : Img) :
    RunResult :=
  let sr2 := if scale ≠ 4 then
      resizePIL cv (pyInt ((w : ℚ) * scale)) (pyInt ((h : ℚ) * scale)) sr
    else sr
  ⟨0, some (cvtRGB2BGR (postprocess_image_enhanced cv sr2)), log⟩

/-- `quality_enhance.main` after argument parsing: the scale range check, the
preprocessing blur, the RealESRGAN branch (tiled on CPU for images larger
than 512*512 pixels, whole-image otherwise, Lanczos 4x fallback when the
library or the weight file is missing or the model raises), the final resize
and postprocessing, and the write. -/
def mainRun (cv : CVLib) (predict : Img → Img) (cfg : EnvConfig) (scale : ℚ)
    (img : Img) : RunResult :=
  if scale ≤ 1 ∨ 4 < scale then ⟨1, none, none⟩
  else
    let pre := preprocess_image cv img
    if cfg.hasRealesrgan ∧ cfg.modelExists then
      if cfg.modelFails then
        finishRun cv scale img.width img.height none
          (resizePIL cv (4 * img.width) (4 * img.height) pre)
      else
        let sr := if ¬ cfg.cuda ∧ 512 * 512 < img.width * img.height then
            upscale_with_tiles predict cfg.cuda pre 512 32
          else predict pre
        finishRun cv scale img.width img.height
          (some (verify_model_execution img sr)) sr
    else
      finishRun cv scale img.width img.height none
        (resizePIL cv (4 * img.width) (4 * img.height) pre)

end QE

namespace MS

/-- `mosaic_superrecon.reduce_mosaic_artifacts(image_cv, strength)`:
GaussianBlur(5x5, 1.0), blend
`addWeighted(image, 1.0 - strength, blurred, strength, 0)`, then
bilateral(5,50,50).  `strength` is not validated. -/
def reduce_mosaic_artifacts (cv : CVLib) (img : Img) (strength : ℚ) : Img :=
  cvBilateralFilter cv 5 50 50
    (addWeightedImg img (1 - strength) (cvGaussianBlur cv 5 1 img) strength 0)

/-- `mosaic_superrecon.enhance_edges`: unsharp mask
`addWeighted(img, 1.8, GaussianBlur(img, (0,0), 2.0), -0.8, 0)`,
CLAHE(3.0, 8x8) on the LAB L channel, then sharpening kernel. -/
def enhance_edges (cv : CVLib) (img : Img) : Img :=
  let unsharp := addWeightedImg img (18/10) (cvGaussianBlur cv 0 2 img) (-(8/10)) 0
  let lab := pmap cv.bgr2lab unsharp
  let l := cv.clahe 3 8 (chan1 lab)
  cvFilter2D cv sharpenKernelB (pmap cv.lab2bgr
    ⟨lab.width, lab.height, fun y x => ⟨l y x, (lab.data y x).c2, (lab.data y x).c3⟩⟩)

/-- `mosaic_superrecon.denoise_image`: NL-means(12,12,7,21) then
bilateral(5,50,50). -/
def denoise_image (cv : CVLib) (img : Img) : Img :=
  cvBilateralFilter cv 5 50 50 (cvNlMeans cv 12 12 7 21 img)

/-- `mosaic_superrecon.enhance_color(image_cv, original_cv)`: with a
reference, resize the reference to the image's size, CLAHE(1.5, 8x8) on the
image's L channel, and blend the A/B chroma channels 90% reference / 10%
image; with no reference, only CLAHE(1.5, 8x8) on the L channel. -/
def enhance_color (cv : CVLib) (img : Img) (origRef : Option Img) : Img :=
  match origRef with
  | some orig =>
    let origUp := resizeCV cv img.width img.height orig
    let origLab := pmap cv.bgr2lab origUp
    let imgLab := pmap cv.bgr2lab img
    let l := cv.clahe (3/2) 8 (chan1 imgLab)
    let a := fun y x => blendChan (9/10) (1/10) 0 (chan2 origLab y x) (chan2 imgLab y x)
    let b := fun y x => blendChan (9/10) (1/10) 0 (chan3 origLab y x) (chan3 imgLab y x)
    pmap cv.lab2bgr ⟨imgLab.width, imgLab.height, fun y x => ⟨l y x, a y x, b y x⟩⟩
  | none =>
    let lab := pmap cv.bgr2lab img
    let l := cv.clahe (3/2) 8 (chan1 lab)
    pmap cv.lab2bgr
      ⟨lab.width, lab.height, fun y x => ⟨l y x, (lab.data y x).c2, (lab.data y x).c3⟩⟩

/-- `mosaic_superrecon.boost_detail` (same body as in quality_enhance). -/
def boost_detail (cv : CVLib) (img : Img) : Img :=
  cvFilter2D cv sharpenKernelA
    (addWeightedImg img (17/10) (cvGaussianBlur cv 0 2 img) (-(7/10)) 0)

/-- `mosaic_superrecon.process_with_esrgan`: when the realesrgan library and
the weight file are both present and the model does not raise, run the model
(tiled on CPU for images above 512*512 pixels); otherwise Lanczos-resize to
`(int(w*4), int(h*4)) = (4*w, 4*h)` (the except branch falls through to the
same fallback). -/
def process_with_esrgan (cv : CVLib) (predict : Img → Img) (cfg : EnvConfig)
    (img : Img) : Img :=
  if cfg.hasRealesrgan ∧ cfg.modelExists ∧ ¬ cfg.modelFails then
    if ¬ cfg.cuda ∧ 512 * 512 < img.width * img.height then
      upscale_with_tiles predict cfg.cuda img 512 32
    else predict img
  else resizePIL cv (4 * img.width) (4 * img.height) img

/-- `mosaic_superrecon.verify_enhancement`: pass iff the pixel-count ratio
enhanced/original is at least 3.5. -/
def verify_enhancement (orig enh : Img) : Bool :=
  decide ((((enh.height * enh.width : ℕ) : ℚ)) / (((orig.height * orig.width : ℕ) : ℚ)) ≥ 7/2)

/-- The CLI arguments of `mosaic_superrecon.main` that affect the pipeline. -/
structure Args where
  scale : ℚ
  mosaicStrength : ℚ
  denoise : Bool
  enhanceEdges : Bool

/-- `mosaic_superrecon.main` after argument parsing, generalized over the
verification function it calls (`mainRun` below instantiates it with
`verify_enhancement`; the generalization makes the claim that verification
never gates success a statable property): scale range check, RGB→BGR,
optional mosaic reduction and denoising, super-resolution, verification (its
result reaches only the log), final resize of both the image and the colour
backup when `scale != 4.0`, the colour-preserving postprocessing chain, the
optional edge enhancement or light sharpening, and the write. -/
def mainRunWith (cv : CVLib) (predict : Img → Img)
    (verifier : Img → Img → Bool) (cfg : EnvConfig) (a : Args) (img : Img) :
    RunResult :=
  if a.scale ≤ 1 ∨ 4 < a.scale then ⟨1, none, none⟩
  else
    let icv0 := cvtRGB2BGR img
    let icv1 := if 0 < a.mosaicStrength then
        reduce_mosaic_artifacts cv icv0 a.mosaicStrength
      else icv0
    let icv2 := if a.denoise then denoise_image cv icv1 else icv1
    let ipil := cvtBGR2RGB icv2
    let sr0 := process_with_esrgan cv predict cfg ipil
    let ver := verifier ipil sr0
    let tw := pyInt ((img.width : ℚ) * a.scale)
    let th := pyInt ((img.height : ℚ) * a.scale)
    let sr1 := if a.scale ≠ 4 then resizePIL cv tw th sr0 else sr0
    let backup := if a.scale ≠ 4 then resizePIL cv tw th img else img
    let srcv0 := cvtRGB2BGR sr1
    let origUp := resizeCV cv srcv0.width srcv0.height (cvtRGB2BGR backup)
    let srcv1 := enhance_color cv srcv0 (some origUp)
    let srcv2 := if a.denoise then denoise_image cv srcv1 else srcv1
    let srcv3 := boost_detail cv srcv2
    let srcv4 := if a.enhanceEdges then enhance_edges cv srcv3
      else addWeightedImg srcv3 (13/10) (cvGaussianBlur cv 0 (3/2) srcv3) (-(3/10)) 0
    ⟨0, some (cvtRGB2BGR (cvtBGR2RGB srcv4)), some ver⟩

/-- `mosaic_superrecon.main` as written: verification by `verify_enhancement`. -/
def mainRun (cv : CVLib) (predict : Img → Img) (cfg : EnvConfig) (a : Args)
    (img : Img) : RunResult :=
  mainRunWith cv predict verify_enhancement cfg a img

end MS

namespace SA

/-- `quality_enhance_standalone.postprocess_image`: optional unsharp mask
`addWeighted(img, 1.5, GaussianBlur(img, (0,0), 2.0), -0.5, 0)`, optional
CLAHE(2.0, 8x8) on the LAB L channel, then the sharpening kernel, with the
RGB↔BGR conversions around the chain. -/
def postprocess_image (cv : CVLib) (img : Img) (sharp contrast : Bool) : Img :=
  let i0 := cvtRGB2BGR img
  let i1 := if sharp then
      addWeightedImg i0 (15/10) (cvGaussianBlur cv 0 2 i0) (-(1/2)) 0
    else i0
  let i2 := if contrast then
      let lab := pmap cv.bgr2lab i1
      let l := cv.clahe 2 8 (chan1 lab)
      pmap cv.lab2bgr
        ⟨lab.width, lab.height, fun y x => ⟨l y x, (lab.data y x).c2, (lab.data y x).c3⟩⟩
    else i1
  cvtBGR2RGB (cvFilter2D cv sharpenKernelB i2)

/-- `quality_enhance_standalone.main` after argument parsing.  Whether or not
the weight file exists, and whether or not loading it raises, the 4x upscale
is the same Lanczos resize to `(int(w*4), int(h*4))` (`upscale_with_model`
resizes in its try branch and in its except branch; the no-model branch
resizes identically), so the model file only changes log output. -/
def mainRun (cv : CVLib) (cfg : EnvConfig) (scale : ℚ) (img : Img) : RunResult :=
  if scale ≤ 1 ∨ 4 < scale then ⟨1, none, none⟩
  else
    let pre := cvGaussianBlur cv 3 (1/2) img
    let sr0 := if cfg.modelExists then
        resizePIL cv (4 * img.width) (4 * img.height) pre
      else
        resizePIL cv (4 * img.width) (4 * img.height) pre
    let sr1 := if scale ≠ 4 then
        resizePIL cv (pyInt ((img.width : ℚ) * scale)) (pyInt ((img.height : ℚ) * scale)) sr0
      else sr0
    ⟨0, some (cvtRGB2BGR (postprocess_image cv sr1 true true)), none⟩

end SA

namespace DL

/-- The expected size in MB recorded in `download_models.MODELS`
(`model_info.get("size_mb")`); `none` for names not in the table.  The only
entry is RealESRGAN_x4plus at 67 MB. -/
def expectedSizeMB (name : String) : Option ℕ :=
  if name = "RealESRGAN_x4plus" then some 67 else none

/-- `download_models.verify_file(file_path, expected_size_mb)`: false when the
file does not exist; when an expected size is given (and truthy, i.e.
nonzero), false when the actual size in MB differs from it by more than 10%;
true otherwise.  Sizes are compared in MB (`bytes / 2^20`). -/
def verify_file (fileExists : Bool) (sizeBytes : ℕ) (expectedMB : Option ℕ) : Bool :=
  if fileExists then
    match expectedMB with
    | some e =>
      if e = 0 then true
      else decide (|((sizeBytes : ℚ) / (1024 * 1024)) - (e : ℚ)| ≤ (e : ℚ) * (1/10))
    | none => true
  else false

/-- The pre-existing state of the weight file on disk. -/
structure FileState where
  fileExists : Bool
  sizeBytes : ℕ

/-- What the network does if a download is attempted: whether
`download_file` succeeds, and the size of the file it leaves on disk. -/
structure NetOutcome where
  succeeded : Bool
  newSizeBytes : ℕ

/-- Observable outcome of `download_model`: its return value, how many
download attempts it performed, and the post-download verification result
(which reaches only a log line). -/
structure DLResult where
  returned : Bool
  downloads : ℕ
  postVerify : Option Bool

/-- `download_models.download_model(model_name, weights_dir, force)`: unknown
model names fail with no download; an existing file that passes the size
verification is accepted with no download (unless `force`); otherwise one
download is attempted, and on a completed download the function returns True
whether or not the post-download size verification passes (the failed check
is only printed as a warning). -/
def download_model (name : String) (st : FileState) (force : Bool)
    (net : NetOutcome) : DLResult :=
  match expectedSizeMB name with
  | none => ⟨false, 0, none⟩
  | some e =>
    if st.fileExists ∧ ¬ force ∧ verify_file true st.sizeBytes (some e) then
      ⟨true, 0, none⟩
    else if net.succeeded then
      ⟨true, 1, some (verify_file true net.newSizeBytes (some e))⟩
    else ⟨false, 1, none⟩

end DL

section DimLemmas

@[simp]
lemma pmap_width (f : Pix → Pix) (img : Img) : (pmap f img).width = img.width := rfl

@[simp]
lemma pmap_height (f : Pix → Pix) (img : Img) : (pmap f img).height = img.height := rfl

@[simp]
lemma addWeightedImg_width (p : Img) (a : ℚ) (q : Img) (b g : ℚ) :
    (addWeightedImg p a q b g).width = p.width := rfl

@[simp]
lemma addWeightedImg_height (p : Img) (a : ℚ) (q : Img) (b g : ℚ) :
    (addWeightedImg p a q b g).height = p.height := rfl

@[simp]
lemma cvGaussianBlur_width (cv : CVLib) (k : ℕ) (sg : ℚ) (img : Img) :
    (cvGaussianBlur cv k sg img).width = img.width := rfl

@[simp]
lemma cvGaussianBlur_height (cv : CVLib) (k : ℕ) (sg : ℚ) (img : Img) :
    (cvGaussianBlur cv k sg img).height = img.height := rfl

@[simp]
lemma cvBilateralFilter_width (cv : CVLib) (d : ℕ) (sc ss : ℚ) (img : Img) :
    (cvBilateralFilter cv d sc ss img).width = img.width := rfl

@[simp]
lemma cvBilateralFilter_height (cv : CVLib) (d : ℕ) (sc ss : ℚ) (img : Img) :
    (cvBilateralFilter cv d sc ss img).height = img.height := rfl

@[simp]
lemma cvNlMeans_width (cv : CVLib) (h hc : ℚ) (t s : ℕ) (img : Img) :
    (cvNlMeans cv h hc t s img).width = img.width := rfl

@[simp]
lemma cvNlMeans_height (cv : CVLib) (h hc : ℚ) (t s : ℕ) (img : Img) :
    (cvNlMeans cv h hc t s img).height = img.height := rfl

@[simp]
lemma cvFilter2D_width (cv : CVLib) (ker : List (List ℚ)) (img : Img) :
    (cvFilter2D cv ker img).width = img.width := rfl

@[simp]
lemma cvFilter2D_height (cv : CVLib) (ker : List (List ℚ)) (img : Img) :
    (cvFilter2D cv ker img).height = img.height := rfl

@[simp]
lemma cvtRGB2BGR_width (img : Img) : (cvtRGB2BGR img).width = img.width := rfl

@[simp]
lemma cvtRGB2BGR_height (img : Img) : (cvtRGB2BGR img).height = img.height := rfl

@[simp]
lemma cvtBGR2RGB_width (img : Img) : (cvtBGR2RGB img).width = img.width := rfl

@[simp]
lemma cvtBGR2RGB_height (img : Img) : (cvtBGR2RGB img).height = img.height := rfl

@[simp]
lemma resizePIL_width (cv : CVLib) (tw th : ℕ) (img : Img) :
    (resizePIL cv tw th img).width = tw := rfl

@[simp]
lemma resizePIL_height (cv : CVLib) (tw th : ℕ) (img : Img) :
    (resizePIL cv tw th img).height = th := rfl

@[simp]
lemma resizeCV_width (cv : CVLib) (tw th : ℕ) (img : Img) :
    (resizeCV cv tw th img).width = tw := rfl

@[simp]
lemma resizeCV_height (cv : CVLib) (tw th : ℕ) (img : Img) :
    (resizeCV cv tw th img).height = th := rfl

@[simp]
lemma pasteImg_width (canvas : Img) (px py : ℕ) (tile : Img) :
    (pasteImg canvas px py tile).width = canvas.width := rfl

@[simp]
lemma pasteImg_height (canvas : Img) (px py : ℕ) (tile : Img) :
    (pasteImg canvas px py tile).height = canvas.height := rfl

@[simp]
lemma newRGB_width (w h : ℕ) : (newRGB w h).width = w := rfl

@[simp]
lemma newRGB_height (w h : ℕ) : (newRGB w h).height = h := rfl

/-- Pasting a list of tiles into a canvas never changes the canvas extent. -/
lemma foldl_paste_width (l : List (ℕ × ℕ × Img)) (c : Img) :
    (l.foldl (fun acc t => pasteImg acc t.1 t.2.1 t.2.2) c).width = c.width := by
  induction l generalizing c with
  | nil => rfl
  | cons hd tl ih => exact (ih _).trans rfl

/-- Pasting a list of tiles into a canvas never changes the canvas extent. -/
lemma foldl_paste_height (l : List (ℕ × ℕ × Img)) (c : Img) :
    (l.foldl (fun acc t => pasteImg acc t.1 t.2.1 t.2.2) c).height = c.height := by
  induction l generalizing c with
  | nil => rfl
  | cons hd tl ih => exact (ih _).trans rfl

@[simp]
lemma upscale_with_tiles_cpu_width (predict : Img → Img) (img : Img) (ts ov : ℕ) :
    (upscale_with_tiles predict false img ts ov).width = 4 * img.width := by
  unfold upscale_with_tiles
  simpa using foldl_paste_width (tileTriples predict img ts ov) _

@[simp]
lemma upscale_with_tiles_cpu_height (predict : Img → Img) (img : Img) (ts ov : ℕ) :
    (upscale_with_tiles predict false img ts ov).height = 4 * img.height := by
  unfold upscale_with_tiles
  simpa using foldl_paste_height (tileTriples predict img ts ov) _

@[simp]
lemma QE_enhance_color_width (cv : CVLib) (img : Img) :
    (QE.enhance_color cv img).width = img.width := rfl

@[simp]
lemma QE_enhance_color_height (cv : CVLib) (img : Img) :
    (QE.enhance_color cv img).height = img.height := rfl

@[simp]
lemma QE_reduce_noise_width (cv : CVLib) (img : Img) :
    (QE.reduce_noise cv img).width = img.width := rfl

@[simp]
lemma QE_reduce_noise_height (cv : CVLib) (img : Img) :
    (QE.reduce_noise cv img).height = img.height := rfl

@[simp]
lemma QE_boost_detail_width (cv : CVLib) (img : Img) :
    (QE.boost_detail cv img).width = img.width := rfl

@[simp]
lemma QE_boost_detail_height (cv : CVLib) (img : Img) :
    (QE.boost_detail cv img).height = img.height := rfl

@[simp]
lemma QE_enhance_edge_clarity_width (cv : CVLib) (img : Img) :
    (QE.enhance_edge_clarity cv img).width = img.width := rfl

@[simp]
lemma QE_enhance_edge_clarity_height (cv : CVLib) (img : Img) :
    (QE.enhance_edge_clarity cv img).height = img.height := rfl

@[simp]
lemma QE_reduce_mosaic_width (cv : CVLib) (img : Img) :
    (QE.reduce_mosaic cv img).width = img.width := rfl

@[simp]
lemma QE_reduce_mosaic_height (cv : CVLib) (img : Img) :
    (QE.reduce_mosaic cv img).height = img.height := rfl

@[simp]
lemma QE_postprocess_width (cv : CVLib) (img : Img) :
    (QE.postprocess_image_enhanced cv img).width = img.width := by
  simp [QE.postprocess_image_enhanced]

@[simp]
lemma QE_postprocess_height (cv : CVLib) (img : Img) :
    (QE.postprocess_image_enhanced cv img).height = img.height := by
  simp [QE.postprocess_image_enhanced]

@[simp]
lemma QE_preprocess_width (cv : CVLib) (img : Img) :
    (QE.preprocess_image cv img).width = img.width := rfl

@[simp]
lemma QE_preprocess_height (cv : CVLib) (img : Img) :
    (QE.preprocess_image cv img).height = img.height := rfl

@[simp]
lemma MS_reduce_mosaic_artifacts_width (cv : CVLib) (img : Img) (s : ℚ) :
    (MS.reduce_mosaic_artifacts cv img s).width = img.width := rfl

@[simp]
lemma MS_reduce_mosaic_artifacts_height (cv : CVLib) (img : Img) (s : ℚ) :
    (MS.reduce_mosaic_artifacts cv img s).height = img.height := rfl

@[simp]
lemma MS_denoise_width (cv : CVLib) (img : Img) :
    (MS.denoise_image cv img).width = img.width := rfl

@[simp]
lemma MS_denoise_height (cv : CVLib) (img : Img) :
    (MS.denoise_image cv img).height = img.height := rfl

@[simp]
lemma MS_boost_detail_width (cv : CVLib) (img : Img) :
    (MS.boost_detail cv img).width = img.width := rfl

@[simp]
lemma MS_boost_detail_height (cv : CVLib) (img : Img) :
    (MS.boost_detail cv img).height = img.height := rfl

@[simp]
lemma MS_enhance_edges_width (cv : CVLib) (img : Img) :
    (MS.enhance_edges cv img).width = img.width := rfl

@[simp]
lemma MS_enhance_edges_height (cv : CVLib) (img : Img) :
    (MS.enhance_edges cv img).height = img.height := rfl

@[simp]
lemma MS_enhance_color_width (cv : CVLib) (img : Img) (r : Option Img) :
    (MS.enhance_color cv img r).width = img.width := by cases r <;> rfl

@[simp]
lemma MS_enhance_color_height (cv : CVLib) (img : Img) (r : Option Img) :
    (MS.enhance_color cv img r).height = img.height := by cases r <;> rfl

/-- Python `int(w * 4.0)` is just `4 * w` for a natural `w`. -/
lemma pyInt_natCast_mul_four (w : ℕ) : pyInt ((w : ℚ) * 4) = 4 * w := by
  have h : ((w : ℚ) * 4) = ((4 * w : ℕ) : ℚ) := by push_cast; ring
  rw [pyInt, h, Int.floor_natCast, Int.toNat_natCast]

end DimLemmas

section ConcreteInstances

/-- A constant pixel grid, for concrete test images. -/
def constPixGrid : ℕ → ℕ → Pix := fun _ _ => ⟨0, 0, 0⟩

/-- A trivial but well-typed instance of the external library interface, used
to evaluate the embedding on concrete inputs. -/
def trivCV : CVLib :=
  ⟨fun _ _ d => d, fun _ _ _ d => d, fun _ _ _ _ d => d, fun _ d => d,
   fun _ _ d => d, fun _ _ d => d, id, id,
   fun _ _ _ _ _ => ⟨0, 0, 0⟩, fun _ _ _ _ _ => ⟨0, 0, 0⟩⟩

/-- A concrete 1x1 test image. -/
def img1 : Img := ⟨1, 1, constPixGrid⟩

/-- A concrete 4x4 test image. -/
def img4 : Img := ⟨4, 4, constPixGrid⟩

/-- A model stub that upscales exactly 4x, as RealESRGAN(scale=4) does. -/
def predict4x : Img → Img := fun i => ⟨4 * i.width, 4 * i.height, constPixGrid⟩

/-- The environment with no realesrgan library and no weight file. -/
def cfgFallback : EnvConfig := ⟨false, false, false, false⟩

/-- Default mosaic_superrecon arguments at scale 2. -/
def msArgs2 : MS.Args := ⟨2, 3/10, false, false⟩

end ConcreteInstances

section MainLemmas

@[simp]
lemma ite_img_width (c : Prop) [Decidable c] (A B : Img) :
    (if c then A else B).width = if c then A.width else B.width := by
  split <;> rfl

@[simp]
lemma ite_img_height (c : Prop) [Decidable c] (A B : Img) :
    (if c then A else B).height = if c then A.height else B.height := by
  split <;> rfl

@[simp]
lemma SA_postprocess_width (cv : CVLib) (img : Img) (s c : Bool) :
    (SA.postprocess_image cv img s c).width = img.width := by
  unfold SA.postprocess_image
  simp

@[simp]
lemma SA_postprocess_height (cv : CVLib) (img : Img) (s c : Bool) :
    (SA.postprocess_image cv img s c).height = img.height := by
  unfold SA.postprocess_image
  simp

/-- Every branch of `quality_enhance.main` ends in `finishRun`; when the
image fed to it is 4x the original whenever no final resize will happen,
the run exits 0 and the written image has the truncated target extent. -/
lemma finishRun_result (cv : CVLib) (scale : ℚ) (w h : ℕ) (log : Option Bool)
    (sr : Img) (hsr : scale = 4 → sr.width = 4 * w ∧ sr.height = 4 * h) :
    (QE.finishRun cv scale w h log sr).exitCode = 0 ∧
    (QE.finishRun cv scale w h log sr).output.map (fun i => (i.width, i.height))
      = some (pyInt ((w : ℚ) * scale), pyInt ((h : ℚ) * scale)) := by
  unfold QE.finishRun
  by_cases h4 : scale = 4
  · subst h4
    simp [(hsr rfl).1, (hsr rfl).2, pyInt_natCast_mul_four]
  · simp [h4]

/-- On every branch of `quality_enhance.main` with a valid scale and a model
that upscales 4x, the run exits 0 and the output has the truncated target
extent. -/
lemma QE_mainRun_result (cv : CVLib) (predict : Img → Img) (cfg : EnvConfig)
    (scale : ℚ) (img : Img)
    (hval : ¬ (scale ≤ 1 ∨ 4 < scale))
    (hp : ∀ i, (predict i).width = 4 * i.width ∧ (predict i).height = 4 * i.height) :
    (QE.mainRun cv predict cfg scale img).exitCode = 0 ∧
    (QE.mainRun cv predict cfg scale img).output.map (fun i => (i.width, i.height))
      = some (pyInt ((img.width : ℚ) * scale), pyInt ((img.height : ℚ) * scale)) := by
  unfold QE.mainRun
  rw [if_neg hval]
  by_cases hm : cfg.hasRealesrgan ∧ cfg.modelExists
  · rw [if_pos hm]
    by_cases hf : cfg.modelFails = true
    · simp only [hf, if_true]
      exact finishRun_result _ _ _ _ _ _ (fun _ => by simp)
    · simp only [hf, if_false, Bool.false_eq_true]
      by_cases ht : ¬ cfg.cuda ∧ 512 * 512 < img.width * img.height
      · rw [if_pos ht]
        have hcu : cfg.cuda = false := by
          revert ht
          cases cfg.cuda <;> simp
        rw [hcu]
        exact finishRun_result _ _ _ _ _ _ (fun _ => by simp)
      · rw [if_neg ht]
        exact finishRun_result _ _ _ _ _ _
          (fun _ => by simp [(hp _).1, (hp _).2])
  · rw [if_neg hm]
    exact finishRun_result _ _ _ _ _ _ (fun _ => by simp)

/-- `process_with_esrgan` always yields an image of 4x the input extent,
provided the model itself upscales 4x (library contract of
RealESRGAN(scale=4)). -/
lemma MS_process_dims (cv : CVLib) (predict : Img → Img) (cfg : EnvConfig)
    (img : Img)
    (hp : ∀ i, (predict i).width = 4 * i.width ∧ (predict i).height = 4 * i.height) :
    (MS.process_with_esrgan cv predict cfg img).width = 4 * img.width ∧
    (MS.process_with_esrgan cv predict cfg img).height = 4 * img.height := by
  unfold MS.process_with_esrgan
  split
  · split
    · rename_i hcond
      have hcu : cfg.cuda = false := by
        rcases hcond with ⟨hc, _⟩
        revert hc
        cases cfg.cuda <;> simp
      rw [hcu]
      simp
    · exact hp img
  · simp

/-- `process_with_esrgan` falls back to the `(4*w, 4*h)` Lanczos resize when
the library is missing, the weight file is missing, or the model raises. -/
lemma MS_process_dims_nomodel (cv : CVLib) (predict : Img → Img)
    (cfg : EnvConfig) (img : Img)
    (hnm : ¬ (cfg.hasRealesrgan ∧ cfg.modelExists ∧ ¬ cfg.modelFails)) :
    (MS.process_with_esrgan cv predict cfg img).width = 4 * img.width ∧
    (MS.process_with_esrgan cv predict cfg img).height = 4 * img.height := by
  unfold MS.process_with_esrgan
  rw [if_neg hnm]
  simp

/-- On every branch of `mosaic_superrecon.main` with a valid scale, provided
super-resolution yields 4x the extent of its input, the run exits 0 and the
output has the truncated target extent. -/
lemma MS_mainRun_result (cv : CVLib) (predict : Img → Img)
    (verifier : Img → Img → Bool) (cfg : EnvConfig) (a : MS.Args) (img : Img)
    (hval : ¬ (a.scale ≤ 1 ∨ 4 < a.scale))
    (hp4 : ∀ j, (MS.process_with_esrgan cv predict cfg j).width = 4 * j.width ∧
      (MS.process_with_esrgan cv predict cfg j).height = 4 * j.height) :
    (MS.mainRunWith cv predict verifier cfg a img).exitCode = 0 ∧
    (MS.mainRunWith cv predict verifier cfg a img).output.map
        (fun i => (i.width, i.height))
      = some (pyInt ((img.width : ℚ) * a.scale), pyInt ((img.height : ℚ) * a.scale)) := by
  have hw : ∀ j, (MS.process_with_esrgan cv predict cfg j).width = 4 * j.width :=
    fun j => (hp4 j).1
  have hh : ∀ j, (MS.process_with_esrgan cv predict cfg j).height = 4 * j.height :=
    fun j => (hp4 j).2
  unfold MS.mainRunWith
  rw [if_neg hval]
  by_cases h4 : a.scale = 4
  · simp [h4, hw, hh, pyInt_natCast_mul_four]
  · simp [h4, hw, hh]

/-- On every branch of `quality_enhance_standalone.main` with a valid scale,
the run exits 0 and the output has the truncated target extent. -/
lemma SA_mainRun_result (cv : CVLib) (cfg : EnvConfig) (scale : ℚ) (img : Img)
    (hval : ¬ (scale ≤ 1 ∨ 4 < scale)) :
    (SA.mainRun cv cfg scale img).exitCode = 0 ∧
    (SA.mainRun cv cfg scale img).output.map (fun i => (i.width, i.height))
      = some (pyInt ((img.width : ℚ) * scale), pyInt ((img.height : ℚ) * scale)) := by
  unfold SA.mainRun
  rw [if_neg hval]
  by_cases h4 : scale = 4
  · simp [h4, pyInt_natCast_mul_four]
  · simp [h4]

end MainLemmas

section Claims

/-- Modelled from the spec's words for the blend inside
`reduce_mosaic_artifacts`: the pixel-wise blend
`(1 - strength) * image + strength * GaussianBlur(image)`, saturated to
8-bit. -/
def specBlend (strength : ℚ) (img blur : Img) : Img :=
  ⟨img.width, img.height, fun y x =>
    ⟨satRound ((1 - strength) * (img.data y x).c1 + strength * (blur.data y x).c1),
     satRound ((1 - strength) * (img.data y x).c2 + strength * (blur.data y x).c2),
     satRound ((1 - strength) * (img.data y x).c3 + strength * (blur.data y x).c3)⟩⟩

/-- Claim C1 (amended): for a valid scale `1 < s ≤ 4` and a model that
upscales 4x, every pipeline script writes an output image whose pixel
dimensions are `(int(w * s), int(h * s))` - Python `int` truncation (floor on
nonnegative values), not `round(w * s)` as the spec states. -/
theorem pipeline_output_dims_floor (cv : CVLib) (predict : Img → Img)
    (cfg : EnvConfig) (a : MS.Args) (scale : ℚ) (img : Img)
    (hp : ∀ i, (predict i).width = 4 * i.width ∧ (predict i).height = 4 * i.height)
    (h1 : 1 < scale) (h4 : scale ≤ 4) (ha : a.scale = scale) :
    ((QE.mainRun cv predict cfg scale img).output.map (fun i => (i.width, i.height))
      = some (pyInt ((img.width : ℚ) * scale), pyInt ((img.height : ℚ) * scale))) ∧
    ((MS.mainRun cv predict cfg a img).output.map (fun i => (i.width, i.height))
      = some (pyInt ((img.width : ℚ) * scale), pyInt ((img.height : ℚ) * scale))) ∧
    ((SA.mainRun cv cfg scale img).output.map (fun i => (i.width, i.height))
      = some (pyInt ((img.width : ℚ) * scale), pyInt ((img.height : ℚ) * scale))) := by
  have hval : ¬ (scale ≤ 1 ∨ 4 < scale) := by
    push_neg
    exact ⟨h1, h4⟩
  have hvala : ¬ (a.scale ≤ 1 ∨ 4 < a.scale) := by rw [ha]; exact hval
  refine ⟨(QE_mainRun_result cv predict cfg scale img hval hp).2, ?_,
    (SA_mainRun_result cv cfg scale img hval).2⟩
  unfold MS.mainRun
  rw [← ha]
  exact (MS_mainRun_result cv predict MS.verify_enhancement cfg a img hvala
    (fun j => MS_process_dims cv predict cfg j hp)).2

/-- Witness for C1's amended theorem at a 1x1 image and scale 2. -/
theorem pipeline_output_dims_floor_witness :
    ((QE.mainRun trivCV predict4x cfgFallback 2 img1).output.map
        (fun i => (i.width, i.height))
      = some (pyInt ((img1.width : ℚ) * 2), pyInt ((img1.height : ℚ) * 2))) ∧
    ((MS.mainRun trivCV predict4x cfgFallback msArgs2 img1).output.map
        (fun i => (i.width, i.height))
      = some (pyInt ((img1.width : ℚ) * 2), pyInt ((img1.height : ℚ) * 2))) ∧
    ((SA.mainRun trivCV cfgFallback 2 img1).output.map
        (fun i => (i.width, i.height))
      = some (pyInt ((img1.width : ℚ) * 2), pyInt ((img1.height : ℚ) * 2))) :=
  pipeline_output_dims_floor trivCV predict4x cfgFallback msArgs2 2 img1
    (fun _ => ⟨rfl, rfl⟩) (by norm_num) (by norm_num) rfl

/-- Counterexample to claim C1 as stated: a 1x1 input at scale 1.5 produces a
1x1 output (the code truncates with `int`), not the `round(1 * 1.5) = 2`
square the claim demands (1.5 rounds to 2 both here and under Python's
banker's rounding). -/
theorem pipeline_output_dims_not_round :
    (QE.mainRun trivCV predict4x cfgFallback (3/2) img1).output.map
        (fun i => (i.width, i.height))
      ≠ some ((round ((img1.width : ℚ) * (3/2))).toNat,
              (round ((img1.height : ℚ) * (3/2))).toNat) := by
  have hval : ¬ ((3/2 : ℚ) ≤ 1 ∨ 4 < (3/2 : ℚ)) := by norm_num
  have h := (QE_mainRun_result trivCV predict4x cfgFallback (3/2) img1 hval
    (fun _ => ⟨rfl, rfl⟩)).2
  rw [h]
  have h1 : pyInt ((3:ℚ)/2) = 1 := by
    rw [pyInt]
    rw [show ⌊(3/2 : ℚ)⌋ = 1 from by rw [Int.floor_eq_iff]; norm_num]
    rfl
  have h2 : round ((3 : ℚ)/2) = 2 := by
    rw [round_eq]
    norm_num
  have hw : ((img1.width : ℚ)) = 1 := by norm_num [img1]
  have hh : ((img1.height : ℚ)) = 1 := by norm_num [img1]
  rw [hw, hh]
  norm_num [h1, h2]
  decide

/-- Claim C2: a scale argument with `s <= 1.0` or `s > 4.0` makes the
pipeline scripts exit with status 1 before writing any output. -/
theorem invalid_scale_exits_without_output (cv : CVLib) (predict : Img → Img)
    (cfg : EnvConfig) (a : MS.Args) (scale : ℚ) (img : Img)
    (h : scale ≤ 1 ∨ 4 < scale) (ha : a.scale = scale) :
    ((QE.mainRun cv predict cfg scale img).exitCode = 1 ∧
     (QE.mainRun cv predict cfg scale img).output = none) ∧
    ((MS.mainRun cv predict cfg a img).exitCode = 1 ∧
     (MS.mainRun cv predict cfg a img).output = none) := by
  have h2 : a.scale ≤ 1 ∨ 4 < a.scale := by rw [ha]; exact h
  unfold QE.mainRun MS.mainRun MS.mainRunWith
  rw [if_pos h, if_pos h2]
  simp

/-- Witness for C2 at scale 5. -/
theorem invalid_scale_exits_without_output_witness :
    ((QE.mainRun trivCV predict4x cfgFallback 5 img1).exitCode = 1 ∧
     (QE.mainRun trivCV predict4x cfgFallback 5 img1).output = none) ∧
    ((MS.mainRun trivCV predict4x cfgFallback ⟨5, 3/10, false, false⟩ img1).exitCode = 1 ∧
     (MS.mainRun trivCV predict4x cfgFallback ⟨5, 3/10, false, false⟩ img1).output = none) :=
  invalid_scale_exits_without_output trivCV predict4x cfgFallback
    ⟨5, 3/10, false, false⟩ 5 img1 (Or.inr (by norm_num)) rfl

/-- Claim C3: when the realesrgan library or the weight file is absent, the
classical Lanczos fallback still runs to completion (exit status 0) and the
output has the pipeline's target resolution `(int(w*s), int(h*s))`. -/
theorem fallback_succeeds_at_target_dims (cv : CVLib) (predict : Img → Img)
    (cfg : EnvConfig) (a : MS.Args) (scale : ℚ) (img : Img)
    (hfb : cfg.hasRealesrgan = false ∨ cfg.modelExists = false)
    (h1 : 1 < scale) (h4 : scale ≤ 4) (ha : a.scale = scale) :
    ((QE.mainRun cv predict cfg scale img).exitCode = 0 ∧
     (QE.mainRun cv predict cfg scale img).output.map (fun i => (i.width, i.height))
       = some (pyInt ((img.width : ℚ) * scale), pyInt ((img.height : ℚ) * scale))) ∧
    ((MS.mainRun cv predict cfg a img).exitCode = 0 ∧
     (MS.mainRun cv predict cfg a img).output.map (fun i => (i.width, i.height))
       = some (pyInt ((img.width : ℚ) * scale), pyInt ((img.height : ℚ) * scale))) := by
  have hval : ¬ (scale ≤ 1 ∨ 4 < scale) := by
    push_neg
    exact ⟨h1, h4⟩
  have hvala : ¬ (a.scale ≤ 1 ∨ 4 < a.scale) := by rw [ha]; exact hval
  have hnm : ¬ (cfg.hasRealesrgan ∧ cfg.modelExists) := by
    rcases hfb with h | h <;> simp [h]
  have hnm3 : ¬ (cfg.hasRealesrgan ∧ cfg.modelExists ∧ ¬ cfg.modelFails) := by
    rcases hfb with h | h <;> simp [h]
  constructor
  · have hq : QE.mainRun cv predict cfg scale img
        = QE.finishRun cv scale img.width img.height none
            (resizePIL cv (4 * img.width) (4 * img.height)
              (QE.preprocess_image cv img)) := by
      unfold QE.mainRun
      rw [if_neg hval]
      simp only [if_neg hnm]
    rw [hq]
    exact finishRun_result _ _ _ _ _ _ (fun _ => by simp)
  · unfold MS.mainRun
    rw [← ha]
    exact MS_mainRun_result cv predict MS.verify_enhancement cfg a img hvala
      (fun j => MS_process_dims_nomodel cv predict cfg j hnm3)

/-- Witness for C3: no realesrgan library, 1x1 image, scale 2. -/
theorem fallback_succeeds_at_target_dims_witness :
    ((QE.mainRun trivCV predict4x cfgFallback 2 img1).exitCode = 0 ∧
     (QE.mainRun trivCV predict4x cfgFallback 2 img1).output.map
         (fun i => (i.width, i.height))
       = some (pyInt ((img1.width : ℚ) * 2), pyInt ((img1.height : ℚ) * 2))) ∧
    ((MS.mainRun trivCV predict4x cfgFallback msArgs2 img1).exitCode = 0 ∧
     (MS.mainRun trivCV predict4x cfgFallback msArgs2 img1).output.map
         (fun i => (i.width, i.height))
       = some (pyInt ((img1.width : ℚ) * 2), pyInt ((img1.height : ℚ) * 2))) :=
  fallback_succeeds_at_target_dims trivCV predict4x cfgFallback msArgs2 2 img1
    (Or.inl rfl) (by norm_num) (by norm_num) rfl

/-- Claim C4: for every image and every strength value - no range check, so
also values outside [0, 1] - `reduce_mosaic_artifacts` is exactly the
bilateral smoothing filter applied to the pixel-wise blend
`(1 - strength) * image + strength * GaussianBlur(image)`; being a total
function of `strength : ℚ`, it raises no error on any strength. -/
theorem reduce_mosaic_artifacts_is_spec_blend (cv : CVLib) (img : Img)
    (strength : ℚ) :
    MS.reduce_mosaic_artifacts cv img strength
      = cvBilateralFilter cv 5 50 50
          (specBlend strength img (cvGaussianBlur cv 5 1 img)) := by
  unfold MS.reduce_mosaic_artifacts
  congr 1
  refine Img.ext rfl rfl ?_
  funext y x
  simp [addWeightedImg, specBlend, blendPix, blendChan]

end Claims

/-- Elements of Python `range(0, n, step)` are multiples of the step. -/
lemma pyRange_mem (n step x : ℕ) (hx : x ∈ pyRange n step) :
    ∃ i, x = i * step := by
  unfold pyRange at hx
  split at hx
  · simp at hx
  · obtain ⟨i, _, rfl⟩ := List.mem_map.mp hx
    exact ⟨i, rfl⟩

/-- Claim C5: the verification predicate passes exactly when the pixel-count
ratio enhanced/original is at least 3.5 (cross-multiplied form: 7·orig ≤
2·enh pixels), and the outcome of the verification function feeds nothing but
the log: exit code and output of `mosaic_superrecon.main` are the same for
any two verifier functions. -/
theorem verify_enhancement_threshold_and_log_only (orig enh : Img)
    (h : 0 < orig.height * orig.width) :
    (MS.verify_enhancement orig enh = true ↔
      7 * ((orig.height * orig.width : ℕ) : ℚ)
        ≤ 2 * ((enh.height * enh.width : ℕ) : ℚ)) ∧
    (∀ (cv : CVLib) (predict : Img → Img) (v1 v2 : Img → Img → Bool)
        (cfg : EnvConfig) (a : MS.Args) (img : Img),
      (MS.mainRunWith cv predict v1 cfg a img).exitCode
          = (MS.mainRunWith cv predict v2 cfg a img).exitCode ∧
      (MS.mainRunWith cv predict v1 cfg a img).output
          = (MS.mainRunWith cv predict v2 cfg a img).output) := by
  constructor
  · have ho : (0 : ℚ) < ((orig.height * orig.width : ℕ) : ℚ) := by
      exact_mod_cast h
    unfold MS.verify_enhancement
    simp only [decide_eq_true_eq, ge_iff_le]
    rw [le_div_iff₀ ho]
    constructor <;> intro hx <;> linarith
  · intro cv predict v1 v2 cfg a img
    unfold MS.mainRunWith
    constructor <;> (split <;> rfl)

/-- Witness for C5's threshold at a 1x1 original and a 4x4 enhanced image
(ratio 16 ≥ 3.5). -/
theorem verify_enhancement_threshold_witness :
    MS.verify_enhancement img1 img4 = true ↔
      7 * ((img1.height * img1.width : ℕ) : ℚ)
        ≤ 2 * ((img4.height * img4.width : ℕ) : ℚ) :=
  (verify_enhancement_threshold_and_log_only img1 img4 (by decide)).1

/-- Claim C6: on the CPU path `upscale_with_tiles` returns an image of
exactly `(4*w, 4*h)`; it is the strictly sequential left fold that pastes the
row-major tile list into a fresh canvas, and every tile in that list sits at
a grid position `(x, y)` stepped by `tile_size - overlap`, is the model
output on the clamped crop at `(x, y)`, and carries paste offset
`(4*x, 4*y)`. -/
theorem upscale_with_tiles_cpu_spec (predict : Img → Img) (img : Img)
    (tile_size overlap : ℕ) :
    (upscale_with_tiles predict false img tile_size overlap).width = 4 * img.width ∧
    (upscale_with_tiles predict false img tile_size overlap).height = 4 * img.height ∧
    upscale_with_tiles predict false img tile_size overlap
      = (tileTriples predict img tile_size overlap).foldl
          (fun acc t => pasteImg acc t.1 t.2.1 t.2.2)
          (newRGB (4 * img.width) (4 * img.height)) ∧
    (tileTriples predict img tile_size overlap).Forall (fun t => ∃ x y,
      (∃ i, x = i * (tile_size - overlap)) ∧ (∃ j, y = j * (tile_size - overlap)) ∧
      t = (4 * x, 4 * y,
        predict (cropImg img x y (min (x + tile_size) img.width)
          (min (y + tile_size) img.height)))) := by
  refine ⟨by simp, by simp, by unfold upscale_with_tiles; simp, ?_⟩
  rw [List.forall_iff_forall_mem]
  intro t ht
  unfold tileTriples at ht
  obtain ⟨y, hy, ht⟩ := List.mem_flatMap.mp ht
  obtain ⟨x, hx, rfl⟩ := List.mem_map.mp ht
  exact ⟨x, y, pyRange_mem _ _ _ hx, pyRange_mem _ _ _ hy, rfl⟩

/-- Claim C7: an existing weight file whose size is off by more than 10% of
the expected size is not accepted: `download_model` attempts a (re-)download. -/
theorem download_model_refetches_on_size_mismatch (name : String) (e : ℕ)
    (st : DL.FileState) (net : DL.NetOutcome)
    (hk : DL.expectedSizeMB name = some e) (he : 0 < e)
    (hex : st.fileExists = true)
    (hmis : |((st.sizeBytes : ℚ) / (1024 * 1024)) - (e : ℚ)| > (e : ℚ) * (1/10)) :
    (DL.download_model name st false net).downloads = 1 := by
  have hv : DL.verify_file true st.sizeBytes (some e) = false := by
    unfold DL.verify_file
    simp only [if_true]
    rw [if_neg (Nat.pos_iff_ne_zero.mp he)]
    exact decide_eq_false (not_le.mpr hmis)
  unfold DL.download_model
  rw [hk]
  cases hn : net.succeeded <;> simp [hex, hv, hn]

/-- Witness for C7: RealESRGAN_x4plus (expected 67 MB) with a 10 MB file on
disk is re-downloaded. -/
theorem download_model_refetch_witness :
    (DL.download_model "RealESRGAN_x4plus" ⟨true, 10485760⟩ false
      ⟨true, 70254592⟩).downloads = 1 :=
  download_model_refetches_on_size_mismatch "RealESRGAN_x4plus" 67
    ⟨true, 10485760⟩ ⟨true, 70254592⟩ rfl (by norm_num) rfl (by norm_num)

/-- Claim C8: the pipeline is a pure function of its inputs - two runs of
`quality_enhance.main` on equal images with equal options, the same library
behaviour and no model (the fallback path) produce equal results. -/
theorem fallback_pipeline_deterministic (cv cv' : CVLib)
    (predict predict' : Img → Img) (cfg cfg' : EnvConfig) (s s' : ℚ)
    (i i' : Img) (_hfb : cfg.hasRealesrgan = false)
    (h1 : cv = cv') (h2 : predict = predict') (h3 : cfg = cfg') (h4 : s = s')
    (h5 : i = i') :
    QE.mainRun cv predict cfg s i = QE.mainRun cv' predict' cfg' s' i' := by
  subst h1 h2 h3 h4 h5
  rfl

/-- Witness for C8: two identical fallback runs at scale 2 coincide. -/
theorem fallback_pipeline_deterministic_witness :
    QE.mainRun trivCV id cfgFallback 2 img1
      = QE.mainRun trivCV id cfgFallback 2 img1 :=
  fallback_pipeline_deterministic trivCV trivCV id id cfgFallback cfgFallback
    2 2 img1 img1 rfl rfl rfl rfl rfl rfl

/-- Claim C9: `enhance_color` with no reference image keeps the pixel
dimensions of its input, in both scripts that define it. -/
theorem enhance_color_no_reference_preserves_dims (cv : CVLib) (img : Img) :
    ((MS.enhance_color cv img none).width = img.width ∧
     (MS.enhance_color cv img none).height = img.height) ∧
    ((QE.enhance_color cv img).width = img.width ∧
     (QE.enhance_color cv img).height = img.height) := by
  exact ⟨⟨by simp, by simp⟩, ⟨by simp, by simp⟩⟩

/-- Claim C10: a fresh download that completes is reported as success (True)
with exactly one download attempt and no retry, even when the post-download
size verification fails; that failed verification reaches only the log. -/
theorem download_model_fresh_corrupt_reports_success (name : String) (e : ℕ)
    (st : DL.FileState) (force : Bool) (net : DL.NetOutcome)
    (hk : DL.expectedSizeMB name = some e)
    (hfresh : st.fileExists = false)
    (hok : net.succeeded = true)
    (hbad : DL.verify_file true net.newSizeBytes (some e) = false) :
    (DL.download_model name st force net).returned = true ∧
    (DL.download_model name st force net).downloads = 1 ∧
    (DL.download_model name st force net).postVerify = some false := by
  unfold DL.download_model
  rw [hk]
  simp [hfresh, hok, hbad]

/-- Witness for C10: a fresh RealESRGAN_x4plus download that leaves a 0-byte
file still returns True after one download. -/
theorem download_model_fresh_corrupt_witness :
    (DL.download_model "RealESRGAN_x4plus" ⟨false, 0⟩ false ⟨true, 0⟩).returned = true ∧
    (DL.download_model "RealESRGAN_x4plus" ⟨false, 0⟩ false ⟨true, 0⟩).downloads = 1 ∧
    (DL.download_model "RealESRGAN_x4plus" ⟨false, 0⟩ false ⟨true, 0⟩).postVerify = some false :=
  download_model_fresh_corrupt_reports_success "RealESRGAN_x4plus" 67
    ⟨false, 0⟩ false ⟨true, 0⟩ rfl rfl rfl (by norm_num [DL.verify_file])
